import Mathlib

/-
Verification of the duffle export/secure-load/driver core.

Shallow embedding conventions:
- Go strings are `List Char` (abbreviated `Str`); a directory of files is an
  association list from relative path to content, written in write order.
- External collaborators (the docker client, the OS stat/create/open calls,
  the keyring and clearsign primitives, the jq subprocess) are explicit
  environment records whose fields give the outcome of each call, so the
  control flow of the Go functions can be reproduced faithfully.
- Fallible Go functions returning (value, error) become `Except Str`-valued
  functions; an early `return err` becomes the corresponding `.error` branch.
- A Go nil-interface dereference (a runtime panic) is modeled by the
  distinguished outcome `crash`.
-/

namespace Duffle

abbrev Str := List Char

/-- One file in a directory: relative path paired with content. -/
abbrev Dir := List (Str × Str)

/-- `hasName d n`: some file in `d` has path `n`. -/
def hasName (d : Dir) (n : Str) : Bool :=
  d.any (fun p => decide (p.1 = n))

/-- Writing a file: `os.Create` truncates an existing file of the same path,
otherwise the file is appended to the directory. -/
def writeFile (d : Dir) (n content : Str) : Dir :=
  if hasName d n then
    d.map (fun p => if p.1 = n then (p.1, content) else p)
  else
    d ++ [(n, content)]

/-- Boolean prefix test on character lists. -/
def hasPrefix : Str → Str → Bool
  | [], _ => true
  | _ :: _, [] => false
  | a :: as, b :: bs => a == b && hasPrefix as bs

/- ### Bundle model (pkg/bundle, the fields export touches) -/

structure Image where
  image : Str
  digest : Str
  deriving DecidableEq, Repr

structure InvocationImage where
  image : Str
  digest : Str
  deriving DecidableEq, Repr

structure Bundle where
  name : Str
  version : Str
  images : List (Str × Image)
  invocationImages : List InvocationImage
  deriving DecidableEq, Repr

/-- All image references of a bundle, in the processing order of
`prepareArtifacts`: the Images map first, then the InvocationImages slice. -/
def bundleRefs (bun : Bundle) : List Str :=
  bun.images.map (fun p => p.2.image) ++ bun.invocationImages.map (fun im => im.image)

/- ### buildFileName (pkg/packager/export.go) -/

/-- `strings.Replace(uri, "/", "-", -1)` then `strings.Replace(_, ":", "-", -1)`. -/
def buildFileName (uri : Str) : Str :=
  let filename := uri.map (fun c => if c = '/' then '-' else c)
  filename.map (fun c => if c = ':' then '-' else c)

def tarSuffix : Str := ".tar".data

def artifactsPrefix : Str := "artifacts/".data

def tempchecksum : Str := "tempchecksum".data

/-- Path of the artifact written for reference `r`, relative to the staging
directory: `artifacts/` joined with `buildFileName r + ".tar"`. -/
def artifactPath (r : Str) : Str :=
  artifactsPrefix ++ (buildFileName r ++ tarSuffix)

/- ### Docker client environment and archiveImage -/

/-- Outcomes of the docker client calls made by `archiveImage`:
`pull r` is `ex.Client.ImagePull(ctx, r, opts)`, `save r` is
`ex.Client.ImageSave(ctx, [r])` with the saved tar stream's bytes. -/
structure DockerEnv where
  pull : Str → Except Str Unit
  save : Str → Except Str Str

def pullOkB : Except Str Unit → Bool
  | .ok _ => true
  | .error _ => false

def saveOkB : Except Str Str → Bool
  | .ok _ => true
  | .error _ => false

/-- Content of the saved image stream (only meaningful when `save` succeeds). -/
def saveContent (env : DockerEnv) (r : Str) : Str :=
  match env.save r with
  | .ok c => c
  | .error _ => []

/-- Every reference in `rs` pulls and saves successfully. -/
def dockerOk (env : DockerEnv) (rs : List Str) : Prop :=
  ∀ r ∈ rs, pullOkB (env.pull r) = true ∧ saveOkB (env.save r) = true

def pullErrorMsg (image e : Str) : Str :=
  ("Error pulling image ".data) ++ image ++ (": ".data) ++ e

/-- `(ex *Exporter) archiveImage`: pull the image (wrapping a pull error),
save it, and write the stream to `artifacts/<buildFileName(image)>.tar`.
Returns the file name, the placeholder checksum, and the updated directory. -/
def archiveImage (env : DockerEnv) (image : Str) (dir : Dir) :
    Except Str (Str × Str × Dir) :=
  match env.pull image with
  | .error e => .error (pullErrorMsg image e)
  | .ok _ =>
    match env.save image with
    | .error e => .error e
    | .ok content =>
      let nm := buildFileName image ++ tarSuffix
      .ok (nm, tempchecksum, writeFile dir (artifactsPrefix ++ nm) content)

/- ### prepareArtifacts -/

/-- The `for key, image := range bun.Images` loop of `prepareArtifacts`:
archive each image in turn, recording the returned checksum as its digest;
the first error aborts the loop. -/
def archiveNamed (env : DockerEnv) :
    List (Str × Image) → Dir → Except Str (List (Str × Image) × Dir)
  | [], dir => .ok ([], dir)
  | (key, im) :: rest, dir =>
    match archiveImage env im.image dir with
    | .error e => .error e
    | .ok (_, checksum, dir1) =>
      match archiveNamed env rest dir1 with
      | .error e => .error e
      | .ok (restImages, dir2) =>
        .ok ((key, { im with digest := checksum }) :: restImages, dir2)

/-- The `for _, in := range bun.InvocationImages` loop of `prepareArtifacts`. -/
def archiveInvocation (env : DockerEnv) :
    List InvocationImage → Dir → Except Str (List InvocationImage × Dir)
  | [], dir => .ok ([], dir)
  | im :: rest, dir =>
    match archiveImage env im.image dir with
    | .error e => .error e
    | .ok (_, checksum, dir1) =>
      match archiveInvocation env rest dir1 with
      | .error e => .error e
      | .ok (restImages, dir2) =>
        .ok ({ im with digest := checksum } :: restImages, dir2)

/-- `(ex *Exporter) prepareArtifacts`: archive every Image, then every
InvocationImage, into the `artifacts/` subdirectory of the staging
directory (paths here carry the `artifacts/` prefix), producing the bundle
updated with the recorded checksums. -/
def prepareArtifacts (env : DockerEnv) (bun : Bundle) (dir : Dir) :
    Except Str (Bundle × Dir) :=
  match archiveNamed env bun.images dir with
  | .error e => .error e
  | .ok (images1, dir1) =>
    match archiveInvocation env bun.invocationImages dir1 with
    | .error e => .error e
    | .ok (inv1, dir2) =>
      .ok ({ bun with images := images1, invocationImages := inv1 }, dir2)

/-- The bundle as rewritten by a fully successful `prepareArtifacts`. -/
def digestedBundle (bun : Bundle) : Bundle :=
  { bun with
    images := bun.images.map (fun p => (p.1, { p.2 with digest := tempchecksum })),
    invocationImages :=
      bun.invocationImages.map (fun im => { im with digest := tempchecksum }) }

/- ### writeBundle (signing) -/

/-- Outcomes of the signing collaborators used by `writeBundle`:
`loadKeyRing` is `signature.LoadKeyRing(secretKeyRing)` yielding the ordered
key list, `keyLookup s` is `kr.Key(s)`, `clearsign k b` is
`signature.NewSigner(k).Clearsign(b)`, `writeFileErr` the outcome of
`ioutil.WriteFile`. -/
structure SignEnv where
  loadKeyRing : Except Str (List Str)
  keyLookup : Str → Except Str Str
  clearsign : Str → Bundle → Except Str Str
  writeFileErr : Option Str

/-- What `writeBundle` did: its returned error or the bytes written, whether
`Clearsign` was invoked, and whether the output-file write was attempted. -/
structure SignTrace where
  result : Except Str Str
  clearsignCalled : Bool
  writeAttempted : Bool
  deriving Repr

def cannotLoadKeyringMsg (e : Str) : Str := ("cannot load keyring: ".data) ++ e

def noKeysMsg : Str := "no signing keys are present in the keyring".data

def cannotSignMsg (e : Str) : Str := ("cannot sign bundle: ".data) ++ e

def cannotWriteMsg (outputFile e : Str) : Str :=
  ("cannot write bundle to ".data) ++ outputFile ++ (": ".data) ++ e

/-- `writeBundle(bf, signer, secretKeyRing, outputFile)`: load the keyring,
fail hard on an empty keyring, select the first key unless `signer` names
one, clearsign the bundle, append a newline, and write the output file. -/
def writeBundle (env : SignEnv) (bun : Bundle) (signer outputFile : Str) : SignTrace :=
  match env.loadKeyRing with
  | .error e => ⟨.error (cannotLoadKeyringMsg e), false, false⟩
  | .ok keys =>
    match keys with
    | [] => ⟨.error noKeysMsg, false, false⟩
    | firstKey :: _ =>
      let keySel := if signer = [] then Except.ok firstKey else env.keyLookup signer
      match keySel with
      | .error e => ⟨.error e, false, false⟩
      | .ok key =>
        match env.clearsign key bun with
        | .error e => ⟨.error (cannotSignMsg e), true, false⟩
        | .ok data =>
          match env.writeFileErr with
          | some e => ⟨.error (cannotWriteMsg outputFile e), true, true⟩
          | none => ⟨.ok (data ++ ['\n']), true, true⟩

/- ### Exporter.Export -/

inductive StatErr
  | notExist
  | permission
  | other
  deriving DecidableEq, Repr

structure FileInfo where
  isDir : Bool
  deriving DecidableEq, Repr

/-- How an `Export` run ends: normal return of nil, return of an error, or a
runtime crash (nil dereference). -/
inductive Outcome
  | ok
  | err (msg : Str)
  | crash
  deriving DecidableEq, Repr

/-- Observable result of an `Export` run: how it ended, whether the
destination archive file was created, and, when the tar step ran to
completion, the staging-directory contents that were archived into it. -/
structure ExportResult where
  outcome : Outcome
  destCreated : Bool
  archived : Option Dir
  deriving DecidableEq, Repr

/-- Outcomes of the OS and loader calls `Export` makes, in program order:
log-file creation, `os.Stat(ex.Source)`, `ex.Loader.Load(ex.Source)`,
`filepath.Abs`, `os.MkdirAll(archiveDir)` (with the staging directory's
pre-existing contents, `[]` when fresh), opening/copying the source
descriptor, the docker and signing collaborators, destination-file
creation, and the tar step. -/
structure ExportEnv where
  createLogErr : Option Str
  stat : Except StatErr FileInfo
  load : Except Str Bundle
  absErr : Option Str
  mkdirErr : Option Str
  stagingPre : Dir
  openSourceErr : Option Str
  sourceBytes : Str
  openDescriptorErr : Option Str
  copyDescriptorErr : Option Str
  docker : DockerEnv
  sign : SignEnv
  createDestErr : Option Str
  tarErr : Option Str

/-- The Exporter fields that decide control flow. -/
structure Exporter where
  Source : Str
  Thin : Bool
  Unsigned : Bool
  Signer : Str

def statNotExistMsg : Str := "no such file or directory".data

def dirErrMsg (source : Str) : Str :=
  ("Bundle manifest ".data) ++ source ++ (" is a directory, should be a file".data)

def errLoadingBundle (e : Str) : Str := ("Error loading bundle: ".data) ++ e

def errPreparingArtifacts (e : Str) : Str := ("Error preparing artifacts: ".data) ++ e

def errWritingBundle (e : Str) : Str :=
  ("Error writing updated bundle file: ".data) ++ e

def errCreatingArchive (e : Str) : Str := ("Error creating archive file: ".data) ++ e

/-- `bundle.cnab` by default, `bundle.json` when exporting unsigned. -/
def descriptorFileName (unsigned : Bool) : Str :=
  if unsigned then "bundle.json".data else "bundle.cnab".data

/-- An early `return err` on a failed OS call, otherwise continue. -/
def orElseErr (o : Option Str) (k : ExportResult) : ExportResult :=
  match o with
  | some e => ⟨.err e, false, none⟩
  | none => k

/-- The tail of `Export`: create the destination file, tar+gzip the staging
directory into it. -/
def finalizeArchive (env : ExportEnv) (dir : Dir) : ExportResult :=
  match env.createDestErr with
  | some e => ⟨.err (errCreatingArchive e), false, none⟩
  | none =>
    match env.tarErr with
    | some e => ⟨.err e, true, none⟩
    | none => ⟨.ok, true, some dir⟩

/-- The part of `Export` after the loader succeeded and the staging directory
exists: copy the descriptor into staging, stop there when thin, otherwise
run `prepareArtifacts` and `writeBundle` before archiving. -/
def exportStage (ex : Exporter) (env : ExportEnv) (bun : Bundle) : ExportResult :=
  let bundlefile := descriptorFileName ex.Unsigned
  let dir1 := writeFile env.stagingPre bundlefile env.sourceBytes
  if ex.Thin then finalizeArchive env dir1
  else
    match prepareArtifacts env.docker bun dir1 with
    | .error e => ⟨.err (errPreparingArtifacts e), false, none⟩
    | .ok (bun2, dir2) =>
      match (writeBundle env.sign bun2 ex.Signer bundlefile).result with
      | .error e => ⟨.err (errWritingBundle e), false, none⟩
      | .ok signedBytes => finalizeArchive env (writeFile dir2 bundlefile signedBytes)

/-- `(ex *Exporter) Export()`. The stat step mirrors the source exactly:
only `os.IsNotExist(err)` is handled; any other stat error leaves `fi` nil
and the subsequent `fi.IsDir()` dereferences it (`crash`). -/
def Exporter.Export (ex : Exporter) (env : ExportEnv) : ExportResult :=
  orElseErr env.createLogErr
    (match env.stat with
     | .error .notExist => ⟨.err statNotExistMsg, false, none⟩
     | .error _ => ⟨.crash, false, none⟩
     | .ok fi =>
       if fi.isDir then ⟨.err (dirErrMsg ex.Source), false, none⟩
       else
         match env.load with
         | .error e => ⟨.err (errLoadingBundle e), false, none⟩
         | .ok bun =>
           orElseErr env.absErr
             (orElseErr env.mkdirErr
               (orElseErr env.openSourceErr
                 (orElseErr env.openDescriptorErr
                   (orElseErr env.copyDescriptorErr
                     (exportStage ex env bun))))))

/- ### Digester (pkg/imagebuilder/docker/digester) -/

inductive DigestOutcome
  | ok (digest : Str)
  | err (e : Str)
  | crash
  deriving DecidableEq, Repr

/-- Result of a `Digest` call plus whether the saved-image stream was closed
before the call returned. -/
structure DigestTrace where
  result : DigestOutcome
  streamClosed : Bool
  deriving DecidableEq, Repr

/-- The collaborator outcomes of `(d *Digester) Digest()`: `imageSave` is
`d.Client.ImageSave(d.Context, [d.Image])`, `fromReader` is
`digest.Canonical.FromReader(reader)` on the returned stream. -/
structure Digester where
  imageSave : Except Str Unit
  fromReader : Except Str Str

/-- `(d *Digester) Digest()`, line by line: the `ImageSave` error is
shadowed (on failure `reader` is nil and `FromReader` dereferences it:
`crash`); on a `FromReader` error the function returns before
`defer reader.Close()` has been registered, so the stream stays open; only
on success is the deferred close registered and run. -/
def Digester.Digest (d : Digester) : DigestTrace :=
  match d.imageSave with
  | .error _ => ⟨.crash, false⟩
  | .ok _ =>
    match d.fromReader with
    | .error e => ⟨.err e, false⟩
    | .ok cd => ⟨.ok cd, true⟩

/- ### loadBundle (cmd, src/unnamed/part_001) -/

def noSignatureBlockMsg : Str := "no signature block in data".data

/-- The errors `loadBundle` can return: a loader-construction failure
(`cannot securely load bundle: ...`), the sentinel `ErrNotSigned`, or the
wrapped `cannot load <secure|insecure> bundle: ...` failure. -/
inductive LoadBundleError
  | loaderInit (msg : Str)
  | notSigned
  | loadFailed (secflag : Str) (msg : Str)
  deriving DecidableEq, Repr

/-- Collaborator outcomes for `loadBundle`: `verifyingKeyRings` is
`loadVerifyingKeyRings(home)` (consulted only on the secure path), and
`loadFile insecure` is `l.Load(bundleFile)` for the loader selected by the
insecure flag (DetectingLoader vs SecureLoader). -/
structure LoadEnv where
  verifyingKeyRings : Except Str Unit
  loadFile : Bool → Except Str Bundle

/-- `loadBundle(bundleFile, insecure)`: build the loader via `getLoader`,
load the file, map the loader error whose message is exactly
`no signature block in data` to the sentinel `ErrNotSigned`, and wrap every
other load error with the secure/insecure flag. -/
def loadBundle (env : LoadEnv) (insecure : Bool) : Except LoadBundleError Bundle :=
  match (if insecure then Except.ok () else env.verifyingKeyRings) with
  | .error e => .error (.loaderInit e)
  | .ok _ =>
    match env.loadFile insecure with
    | .ok bun => .ok bun
    | .error e =>
      if e = noSignatureBlockMsg then .error .notSigned
      else
        .error (.loadFailed (if insecure then "insecure".data else "secure".data) e)

/- ### Example driver script (src/unnamed/part_000) -/

structure DriverResult where
  stdout : Str
  exitCode : Nat
  deriving DecidableEq, Repr

def handlesTokens : Str := "docker,oci,qcow".data

/-- The main mode of the script: `echo -n "Plugin: The action is "` followed
by `cat - | jq .action`; with `set -eo pipefail` the script's exit code is
jq's. The `jq` parameter models the jq subprocess on the stdin JSON. -/
def mainMode (jq : Str → Str × Nat) (stdin : Str) : DriverResult :=
  let out := jq stdin
  ⟨("Plugin: The action is ".data) ++ out.1, out.2⟩

/-- The example driver script on its argument list and stdin: `--handles`
echoes the supported tokens and exits 0, `--help` echoes usage and exits 1,
anything else runs the main mode. -/
def exampleDriver (jq : Str → Str × Nat) (args : List Str) (stdin : Str) :
    DriverResult :=
  match args with
  | a1 :: _ =>
    if a1 = ("--handles".data) then ⟨handlesTokens ++ ['\n'], 0⟩
    else if a1 = ("--help".data) then
      ⟨("Put yer helptext here".data) ++ ['\n'], 1⟩
    else mainMode jq stdin
  | [] => mainMode jq stdin

/- ### Spec-side definition for the naming refinement (C6) -/

/-- Modelled from the spec wording, for comparison with `buildFileName`: the
artifact file name is the reference with every slash and every colon
replaced by a dash, suffixed `.tar`. -/
def specArtifactFileName (r : Str) : Str :=
  (r.map (fun c => if c = '/' ∨ c = ':' then '-' else c)) ++ tarSuffix

/- ### Concrete inputs used by witnesses and counterexamples -/

/-- A docker client for which every pull and save succeeds; the saved stream
content is derived from the reference so overwrites are observable. -/
def dockerAllOk : DockerEnv :=
  { pull := fun _ => .ok (),
    save := fun r => .ok (("content-".data) ++ r) }

/-- A docker client whose image pull always fails. -/
def dockerPullFail : DockerEnv :=
  { pull := fun _ => .error ("boom".data),
    save := fun r => .ok (("content-".data) ++ r) }

/-- A docker client distinguishing the two colliding references of C10. -/
def dockerC10 : DockerEnv :=
  { pull := fun _ => .ok (),
    save := fun r =>
      if r = ("a/b".data) then .ok ("first-content".data)
      else .ok ("second-content".data) }

/-- A signing environment with a single key and an always-succeeding
clearsign step. -/
def signEnvOk : SignEnv :=
  { loadKeyRing := .ok [("key1".data)],
    keyLookup := fun _ => .error ("key not found".data),
    clearsign := fun _ _ => .ok ("signed".data),
    writeFileErr := none }

/-- A signing environment whose keyring loads successfully but is empty. -/
def signEnvEmpty : SignEnv :=
  { loadKeyRing := .ok [],
    keyLookup := fun _ => .error ("key not found".data),
    clearsign := fun _ _ => .ok ("signed".data),
    writeFileErr := none }

/-- A small bundle with one Image and one InvocationImage whose references
have distinct sanitized names. -/
def bunW : Bundle :=
  { name := "app".data, version := "1.0.0".data,
    images := [(("db".data), ⟨"a".data, []⟩)],
    invocationImages := [⟨"b".data, []⟩] }

/-- Two Images whose references `a/b` and `a:b` collide after sanitizing. -/
def bunC1x : Bundle :=
  { name := "app".data, version := "1.0.0".data,
    images := [(("one".data), ⟨"a/b".data, []⟩), (("two".data), ⟨"a:b".data, []⟩)],
    invocationImages := [] }

/-- One Image `a/b` and one InvocationImage `a:b`: colliding artifact paths
across the two processing phases of `prepareArtifacts`. -/
def bunC10 : Bundle :=
  { name := "app".data, version := "1".data,
    images := [(("db".data), ⟨"a/b".data, []⟩)],
    invocationImages := [⟨"a:b".data, []⟩] }

/-- A bundle with a single Image, used for the fail-fast witness. -/
def bunC2 : Bundle :=
  { name := "app".data, version := "1.0.0".data,
    images := [(("db".data), ⟨"img".data, []⟩)],
    invocationImages := [] }

/-- An export environment in which every OS call succeeds. -/
def mkEnv (bun : Bundle) (docker : DockerEnv) (sign : SignEnv) (pre : Dir) : ExportEnv :=
  { createLogErr := none, stat := .ok ⟨false⟩, load := .ok bun, absErr := none,
    mkdirErr := none, stagingPre := pre, openSourceErr := none,
    sourceBytes := "rawbundle".data, openDescriptorErr := none,
    copyDescriptorErr := none, docker := docker, sign := sign,
    createDestErr := none, tarErr := none }

def exThin : Exporter :=
  { Source := "bundle.json".data, Thin := true, Unsigned := false, Signer := [] }

def exThick : Exporter :=
  { Source := "bundle.json".data, Thin := false, Unsigned := false, Signer := [] }

def envC1x : ExportEnv := mkEnv bunC1x dockerAllOk signEnvOk []

def envC1w : ExportEnv := mkEnv bunW dockerAllOk signEnvOk []

def envC2 : ExportEnv := mkEnv bunC2 dockerPullFail signEnvOk []

/-- A docker client failing exactly on the reference `bad`: image pulls of
every other reference succeed. -/
def dockerInvFail : DockerEnv :=
  { pull := fun r => if r = ("bad".data) then .error ("boom".data) else .ok (),
    save := fun r => .ok (("content-".data) ++ r) }

/-- A bundle whose single Image succeeds and whose single InvocationImage is
the failing reference: a failure in the second loop of prepareArtifacts. -/
def bunC2b : Bundle :=
  { name := "app".data, version := "1.0.0".data,
    images := [(("db".data), ⟨"good".data, []⟩)],
    invocationImages := [⟨"bad".data, []⟩] }

def envC2b : ExportEnv := mkEnv bunC2b dockerInvFail signEnvOk []

def envC7 : ExportEnv :=
  mkEnv bunW dockerAllOk signEnvOk [(("stale.txt".data), ("junk".data))]

def envC9 : ExportEnv :=
  { mkEnv bunW dockerAllOk signEnvOk [] with stat := .error .permission }

def envC9w : ExportEnv :=
  { mkEnv bunW dockerAllOk signEnvOk [] with stat := .error .other }

/-- Artifact-file count inside an (optional) archived directory. -/
def countArtifacts (res : ExportResult) : Option Nat :=
  res.archived.map (fun d => (d.filter (fun p => hasPrefix artifactsPrefix p.1)).length)

def readFailMsg : Str := "unexpected EOF".data

/-- ImageSave succeeds, the digest computation over the stream fails. -/
def digesterReadFail : Digester :=
  { imageSave := .ok (), fromReader := .error readFailMsg }

/-- Both collaborator calls succeed. -/
def digesterAllOk : Digester :=
  { imageSave := .ok (), fromReader := .ok ("sha256:abc".data) }

/-- A loader environment whose load fails with exactly the no-signature-block
message. -/
def loadEnvNoSig : LoadEnv :=
  { verifyingKeyRings := .ok (),
    loadFile := fun _ => .error noSignatureBlockMsg }

/- ## Theorems -/

/- ### Helper lemmas -/

theorem pullOkB_eq {x : Except Str Unit} (h : pullOkB x = true) : x = .ok () := by
  cases x with
  | ok u => cases u; rfl
  | error e => simp [pullOkB] at h

theorem saveOkB_eq {x : Except Str Str} (h : saveOkB x = true) : ∃ c, x = .ok c := by
  cases x with
  | ok c => exact ⟨c, rfl⟩
  | error e => simp [saveOkB] at h

theorem archiveImage_ok (env : DockerEnv) (r : Str) (dir : Dir) (c : Str)
    (hp : env.pull r = .ok ()) (hs : env.save r = .ok c) :
    archiveImage env r dir =
      .ok (buildFileName r ++ tarSuffix, tempchecksum,
           writeFile dir (artifactPath r) c) := by
  simp [archiveImage, hp, hs, artifactPath]

theorem writeFile_fresh (d : Dir) (n c : Str) (h : hasName d n = false) :
    writeFile d n c = d ++ [(n, c)] := by
  simp [writeFile, h]

theorem writeFile_head (n c0 c1 : Str) (d : Dir) (h : ∀ p ∈ d, p.1 ≠ n) :
    writeFile ((n, c0) :: d) n c1 = (n, c1) :: d := by
  have hn : hasName ((n, c0) :: d) n = true := by simp [hasName]
  simp only [writeFile, hn, if_true, List.map_cons, if_pos rfl]
  refine congrArg _ ?_
  calc d.map (fun p => if p.1 = n then (p.1, c1) else p)
      = d.map id := List.map_congr_left (fun p hp => if_neg (h p hp))
    _ = d := List.map_id d

theorem hasName_append (d1 d2 : Dir) (n : Str) :
    hasName (d1 ++ d2) n = (hasName d1 n || hasName d2 n) := by
  simp [hasName, List.any_append]

theorem descriptor_ne_artifactPath (u : Bool) (r : Str) :
    descriptorFileName u ≠ artifactPath r := by
  intro h
  cases u with
  | false =>
    have h2 : ('b' : Char) = 'a' := congrArg (fun l => l.headD 'z') h
    exact absurd h2 (by decide)
  | true =>
    have h2 : ('b' : Char) = 'a' := congrArg (fun l => l.headD 'z') h
    exact absurd h2 (by decide)

theorem hasPrefix_append_self (p x : Str) : hasPrefix p (p ++ x) = true := by
  induction p with
  | nil => rfl
  | cons a as ih => simp [hasPrefix, ih]

theorem descriptor_no_artifacts_prefix (u : Bool) :
    hasPrefix artifactsPrefix (descriptorFileName u) = false := by
  cases u <;> decide

theorem buildFileName_spec (r : Str) :
    buildFileName r ++ tarSuffix = specArtifactFileName r := by
  have hf : ((fun c => if c = ':' then '-' else c) ∘ fun c => if c = '/' then '-' else c)
      = fun c => if c = '/' ∨ c = ':' then '-' else c := by
    funext c
    by_cases h1 : c = '/'
    · subst h1; decide
    · by_cases h2 : c = ':'
      · subst h2; decide
      · simp [Function.comp, h1, h2]
  simp only [buildFileName, specArtifactFileName, List.map_map, hf]

theorem specArtifactFileName_no_slash (r : Str) : '/' ∉ specArtifactFileName r := by
  intro hmem
  simp only [specArtifactFileName] at hmem
  rcases List.mem_append.1 hmem with h | h
  · obtain ⟨a, _, heq⟩ := List.mem_map.1 h
    by_cases hc : a = '/' ∨ a = ':'
    · rw [if_pos hc] at heq; exact absurd heq (by decide)
    · rw [if_neg hc] at heq; exact hc (Or.inl heq)
  · exact absurd h (by decide)

theorem specArtifactFileName_no_colon (r : Str) : ':' ∉ specArtifactFileName r := by
  intro hmem
  simp only [specArtifactFileName] at hmem
  rcases List.mem_append.1 hmem with h | h
  · obtain ⟨a, _, heq⟩ := List.mem_map.1 h
    by_cases hc : a = '/' ∨ a = ':'
    · rw [if_pos hc] at heq; exact absurd heq (by decide)
    · rw [if_neg hc] at heq; exact hc (Or.inr heq)
  · exact absurd h (by decide)

/- ### C4 -/

/-- C4: for every bundle and every keyring that loads with zero keys,
`writeBundle` fails hard with the no-signing-keys error, with `Clearsign`
never invoked and the output-file write never attempted. -/
theorem C4_empty_keyring_hard_error (env : SignEnv) (bun : Bundle)
    (signer outputFile : Str) (h : env.loadKeyRing = .ok []) :
    writeBundle env bun signer outputFile = ⟨.error noKeysMsg, false, false⟩ := by
  simp [writeBundle, h]

/-- C4 witness: the empty-keyring environment instantiates the theorem. -/
theorem C4_empty_keyring_hard_error_witness :
    writeBundle signEnvEmpty bunW [] [] = ⟨.error noKeysMsg, false, false⟩ :=
  C4_empty_keyring_hard_error signEnvEmpty bunW [] [] rfl

/- ### C5 -/

/-- C5: the claim that `Digester.Digest` closes the image stream on every
exit path fails in the source: on a digest-computation/read failure the
function returns before `defer reader.Close()` is registered, so the stream
is left open, while the success path does close it. -/
theorem C5_digest_stream_leak :
    Digester.Digest digesterReadFail = ⟨.err readFailMsg, false⟩ ∧
    Digester.Digest digesterAllOk = ⟨.ok ("sha256:abc".data), true⟩ :=
  ⟨rfl, rfl⟩

/- ### C8 -/

/-- C8: invoked with first argument `--handles`, the example driver writes
the comma-separated token list `docker,oci,qcow` (with trailing newline) to
standard output and exits with code 0, for every jq behavior, remaining
arguments and stdin. -/
theorem C8_driver_handles (jq : Str → Str × Nat) (rest : List Str) (stdin : Str) :
    exampleDriver jq (("--handles".data) :: rest) stdin = ⟨handlesTokens ++ ['\n'], 0⟩ ∧
    handlesTokens = "docker,oci,qcow".data :=
  ⟨rfl, rfl⟩

/- ### C9 -/

/-- C9 counterexample: a stat failure that is not a not-exist error (here a
permission error) does not make `Export` return an error; it dereferences
the nil FileInfo instead (`crash`). -/
theorem C9_stat_error_crash_counterexample :
    exThick.Export envC9 = ⟨.crash, false, none⟩ := rfl

/-- C9 (amended): `Export`'s source validation is partial, not total: when
`os.Stat` fails, the error is returned only when it is a not-exist error;
for any other stat error, `fi.IsDir()` is evaluated on the nil FileInfo. -/
theorem C9_stat_error_partial_validation (ex : Exporter) (env : ExportEnv)
    (e : StatErr) (hlog : env.createLogErr = none) (hstat : env.stat = .error e) :
    (e = .notExist → ex.Export env = ⟨.err statNotExistMsg, false, none⟩) ∧
    (e ≠ .notExist → ex.Export env = ⟨.crash, false, none⟩) := by
  constructor
  · rintro rfl
    simp [Exporter.Export, orElseErr, hlog, hstat]
  · intro hne
    cases e with
    | notExist => exact absurd rfl hne
    | permission => simp [Exporter.Export, orElseErr, hlog, hstat]
    | other => simp [Exporter.Export, orElseErr, hlog, hstat]

/-- C9 witness: instantiating the amended theorem at a concrete stat error
that is not a not-exist error. -/
theorem C9_stat_error_partial_validation_witness :
    exThin.Export envC9w = ⟨.crash, false, none⟩ :=
  (C9_stat_error_partial_validation exThin envC9w .other rfl rfl).2 (by decide)

/- ### C10 -/

/-- C10: `buildFileName` is not injective: the distinct references `a/b` and
`a:b` sanitize to the same artifact file name, and `prepareArtifacts`
finishes without error with a single artifacts entry holding the later
image's content — the earlier content was silently overwritten. -/
theorem C10_buildFileName_collision :
    ("a/b".data : Str) ≠ ("a:b".data) ∧
    buildFileName ("a/b".data) = buildFileName ("a:b".data) ∧
    artifactPath ("a/b".data) = artifactPath ("a:b".data) ∧
    prepareArtifacts dockerC10 bunC10 [] =
      .ok ({ bunC10 with
             images := [(("db".data), ⟨"a/b".data, tempchecksum⟩)],
             invocationImages := [⟨"a:b".data, tempchecksum⟩] },
           [(("artifacts/a-b.tar".data), ("second-content".data))]) :=
  ⟨by decide, by decide, by decide, rfl⟩

/- ### C7 -/

/-- C7 counterexample: with the staging directory already existing and
non-empty, `Export` neither detects it nor aborts: it completes with
outcome ok and even archives the stale pre-existing file. -/
theorem C7_preexisting_staging_counterexample :
    (exThin.Export envC7).outcome = .ok ∧
    (exThin.Export envC7).archived =
      some [(("stale.txt".data), ("junk".data)),
            (("bundle.cnab".data), ("rawbundle".data))] :=
  ⟨rfl, rfl⟩

/-- C7 (amended): `Export` does not detect a pre-existing staging directory:
`os.MkdirAll` succeeds when the directory already exists, so the run
silently reuses it — for arbitrary pre-existing contents a thin export
completes successfully and the archive is the pre-existing contents plus
the staged descriptor. It aborts at this step only if MkdirAll itself
returns an error. -/
theorem C7_preexisting_staging_silent_reuse (ex : Exporter) (env : ExportEnv)
    (bun : Bundle) (hthin : ex.Thin = true)
    (h1 : env.createLogErr = none) (h2 : env.stat = .ok ⟨false⟩)
    (h3 : env.load = .ok bun) (h4 : env.absErr = none) (h5 : env.mkdirErr = none)
    (h6 : env.openSourceErr = none) (h7 : env.openDescriptorErr = none)
    (h8 : env.copyDescriptorErr = none) (h9 : env.createDestErr = none)
    (h10 : env.tarErr = none) :
    ex.Export env =
      ⟨.ok, true,
       some (writeFile env.stagingPre (descriptorFileName ex.Unsigned)
         env.sourceBytes)⟩ := by
  simp [Exporter.Export, orElseErr, exportStage, finalizeArchive,
    h1, h2, h3, h4, h5, h6, h7, h8, h9, h10, hthin]

/-- C7 witness: the amended theorem at the concrete pre-existing directory. -/
theorem C7_preexisting_staging_silent_reuse_witness :
    exThin.Export envC7 =
      ⟨.ok, true,
       some (writeFile envC7.stagingPre (descriptorFileName false)
         ("rawbundle".data))⟩ :=
  C7_preexisting_staging_silent_reuse exThin envC7 bunW rfl rfl rfl rfl rfl rfl
    rfl rfl rfl rfl rfl

/- ### C3 -/

/-- C3: `loadBundle` returns the sentinel `ErrNotSigned` exactly when the
loader's error message is the no-signature-block message; every other load
failure is wrapped into a `loadFailed` error, a constructor distinct from
`notSigned`, so the two kinds are never confused. -/
theorem C3_loadBundle_not_signed_distinct (env : LoadEnv) (insecure : Bool)
    (e : Str) (hkr : insecure = false → env.verifyingKeyRings = .ok ())
    (he : env.loadFile insecure = .error e) :
    (loadBundle env insecure = .error .notSigned ↔ e = noSignatureBlockMsg) ∧
    (e ≠ noSignatureBlockMsg →
      loadBundle env insecure =
        .error (.loadFailed (if insecure then "insecure".data else "secure".data) e)) ∧
    (∀ sf m, LoadBundleError.loadFailed sf m ≠ LoadBundleError.notSigned) := by
  have hk : (if insecure then Except.ok () else env.verifyingKeyRings) = .ok () := by
    cases insecure with
    | false => simpa using hkr rfl
    | true => rfl
  have hform : loadBundle env insecure =
      (if e = noSignatureBlockMsg then Except.error LoadBundleError.notSigned
       else .error (.loadFailed (if insecure then "insecure".data else "secure".data) e)) := by
    simp [loadBundle, hk, he]
  refine ⟨?_, fun hne => by rw [hform, if_neg hne], fun sf m => by simp⟩
  rw [hform]
  by_cases h : e = noSignatureBlockMsg
  · simp [h]
  · simp [h]

/-- C3 witness: a load failing with exactly the no-signature-block message
yields the sentinel. -/
theorem C3_loadBundle_not_signed_distinct_witness :
    loadBundle loadEnvNoSig false = .error .notSigned :=
  ((C3_loadBundle_not_signed_distinct loadEnvNoSig false noSignatureBlockMsg
    (fun _ => rfl) rfl).1).2 rfl

/- ### C6 -/

/-- C6: for every image reference, a successful `archiveImage` writes the
artifact directly under `artifacts/` at the filename obtained by replacing
every slash and colon with a dash and appending `.tar` (the source's
`buildFileName` agrees with that spec wording), and the filename contains
no separator, so no nested directories arise. -/
theorem C6_artifact_naming (env : DockerEnv) (r : Str) (dir : Dir) (c : Str)
    (hp : env.pull r = .ok ()) (hs : env.save r = .ok c) :
    archiveImage env r dir =
      .ok (specArtifactFileName r, tempchecksum,
           writeFile dir (artifactsPrefix ++ specArtifactFileName r) c) ∧
    buildFileName r ++ tarSuffix = specArtifactFileName r ∧
    '/' ∉ specArtifactFileName r ∧ ':' ∉ specArtifactFileName r := by
  refine ⟨?_, buildFileName_spec r, specArtifactFileName_no_slash r,
    specArtifactFileName_no_colon r⟩
  rw [archiveImage_ok env r dir c hp hs, ← buildFileName_spec r]
  rfl

/-- C6 witness: the naming theorem at a concrete reference with both
separators. -/
theorem C6_artifact_naming_witness :
    archiveImage dockerAllOk ("example.com/foo:v1".data) [] =
      .ok (specArtifactFileName ("example.com/foo:v1".data), tempchecksum,
           writeFile [] (artifactsPrefix ++ specArtifactFileName ("example.com/foo:v1".data))
             (("content-".data) ++ ("example.com/foo:v1".data))) :=
  (C6_artifact_naming dockerAllOk ("example.com/foo:v1".data) []
    (("content-".data) ++ ("example.com/foo:v1".data)) rfl rfl).1

/- ### Machinery for C1 and C2: runs of prepareArtifacts -/

theorem hasName_cons (p : Str × Str) (d : Dir) (n : Str) :
    hasName (p :: d) n = (decide (p.1 = n) || hasName d n) := by
  simp [hasName]

theorem hasName_map_false {α : Type} (l : List α) (f g : α → Str) (n : Str)
    (h : n ∉ l.map f) : hasName (l.map (fun p => (f p, g p))) n = false := by
  induction l with
  | nil => rfl
  | cons a t ih =>
    rw [List.map_cons] at h
    simp only [List.mem_cons, not_or] at h
    rw [List.map_cons, hasName_cons, ih h.2]
    simp [decide_eq_false (fun hEq : f a = n => h.1 hEq.symm)]

theorem archiveNamed_ok (env : DockerEnv) :
    ∀ (ims : List (Str × Image)) (dir : Dir),
      (∀ p ∈ ims, pullOkB (env.pull p.2.image) = true ∧ saveOkB (env.save p.2.image) = true) →
      (∀ p ∈ ims, hasName dir (artifactPath p.2.image) = false) →
      (ims.map (fun p => artifactPath p.2.image)).Nodup →
      archiveNamed env ims dir =
        .ok (ims.map (fun p => (p.1, { p.2 with digest := tempchecksum })),
             dir ++ ims.map (fun p => (artifactPath p.2.image, saveContent env p.2.image))) := by
  intro ims
  induction ims with
  | nil => intro dir _ _ _; simp [archiveNamed]
  | cons hd tl ih =>
    intro dir hok hfresh hnodup
    obtain ⟨k1, im1⟩ := hd
    obtain ⟨hp, hs⟩ := hok (k1, im1) (List.mem_cons_self _ _)
    obtain ⟨c, hsc⟩ := saveOkB_eq hs
    have hcontent : saveContent env im1.image = c := by simp [saveContent, hsc]
    have hfresh1 : hasName dir (artifactPath im1.image) = false :=
      hfresh (k1, im1) (List.mem_cons_self _ _)
    rw [List.map_cons] at hnodup
    have hnotmem := (List.nodup_cons.1 hnodup).1
    have hfresh2 : ∀ p ∈ tl,
        hasName (dir ++ [(artifactPath im1.image, c)]) (artifactPath p.2.image) = false := by
      intro p hp2
      rw [hasName_append, hfresh p (List.mem_cons_of_mem _ hp2)]
      have hne : artifactPath p.2.image ≠ artifactPath im1.image := by
        intro hEq
        exact hnotmem (hEq ▸ List.mem_map_of_mem _ hp2)
      simp [hasName, Ne.symm hne]
    have hok2 : ∀ p ∈ tl,
        pullOkB (env.pull p.2.image) = true ∧ saveOkB (env.save p.2.image) = true :=
      fun p hp2 => hok p (List.mem_cons_of_mem _ hp2)
    have hrec := ih (dir ++ [(artifactPath im1.image, c)]) hok2 hfresh2
      (List.nodup_cons.1 hnodup).2
    simp [archiveNamed, archiveImage_ok env im1.image dir c (pullOkB_eq hp) hsc,
      writeFile_fresh dir (artifactPath im1.image) c hfresh1, hrec, hcontent,
      List.append_assoc]

theorem archiveInvocation_ok (env : DockerEnv) :
    ∀ (ims : List InvocationImage) (dir : Dir),
      (∀ p ∈ ims, pullOkB (env.pull p.image) = true ∧ saveOkB (env.save p.image) = true) →
      (∀ p ∈ ims, hasName dir (artifactPath p.image) = false) →
      (ims.map (fun p => artifactPath p.image)).Nodup →
      archiveInvocation env ims dir =
        .ok (ims.map (fun p => { p with digest := tempchecksum }),
             dir ++ ims.map (fun p => (artifactPath p.image, saveContent env p.image))) := by
  intro ims
  induction ims with
  | nil => intro dir _ _ _; simp [archiveInvocation]
  | cons hd tl ih =>
    intro dir hok hfresh hnodup
    obtain ⟨hp, hs⟩ := hok hd (List.mem_cons_self _ _)
    obtain ⟨c, hsc⟩ := saveOkB_eq hs
    have hcontent : saveContent env hd.image = c := by simp [saveContent, hsc]
    have hfresh1 : hasName dir (artifactPath hd.image) = false :=
      hfresh hd (List.mem_cons_self _ _)
    rw [List.map_cons] at hnodup
    have hnotmem := (List.nodup_cons.1 hnodup).1
    have hfresh2 : ∀ p ∈ tl,
        hasName (dir ++ [(artifactPath hd.image, c)]) (artifactPath p.image) = false := by
      intro p hp2
      rw [hasName_append, hfresh p (List.mem_cons_of_mem _ hp2)]
      have hne : artifactPath p.image ≠ artifactPath hd.image := by
        intro hEq
        exact hnotmem (hEq ▸ List.mem_map_of_mem _ hp2)
      simp [hasName, Ne.symm hne]
    have hok2 : ∀ p ∈ tl,
        pullOkB (env.pull p.image) = true ∧ saveOkB (env.save p.image) = true :=
      fun p hp2 => hok p (List.mem_cons_of_mem _ hp2)
    have hrec := ih (dir ++ [(artifactPath hd.image, c)]) hok2 hfresh2
      (List.nodup_cons.1 hnodup).2
    simp [archiveInvocation, archiveImage_ok env hd.image dir c (pullOkB_eq hp) hsc,
      writeFile_fresh dir (artifactPath hd.image) c hfresh1, hrec, hcontent,
      List.append_assoc]

theorem prepareArtifacts_ok (env : DockerEnv) (bun : Bundle) (dir : Dir)
    (hok : dockerOk env (bundleRefs bun))
    (hfresh : ∀ r ∈ bundleRefs bun, hasName dir (artifactPath r) = false)
    (hnodup : ((bundleRefs bun).map artifactPath).Nodup) :
    prepareArtifacts env bun dir =
      .ok (digestedBundle bun,
           dir ++ (bundleRefs bun).map (fun r => (artifactPath r, saveContent env r))) := by
  have hmemA : ∀ p ∈ bun.images, p.2.image ∈ bundleRefs bun := by
    intro p hp
    exact List.mem_append_left _ (List.mem_map_of_mem _ hp)
  have hmemB : ∀ q ∈ bun.invocationImages, q.image ∈ bundleRefs bun := by
    intro q hq
    exact List.mem_append_right _ (List.mem_map_of_mem _ hq)
  have hmap : (bundleRefs bun).map artifactPath
      = bun.images.map (fun p => artifactPath p.2.image)
        ++ bun.invocationImages.map (fun q => artifactPath q.image) := by
    simp [bundleRefs, List.map_append, List.map_map, Function.comp_def]
  rw [hmap] at hnodup
  obtain ⟨hnodupA, hnodupB, hdisj⟩ := List.nodup_append.1 hnodup
  have hA := archiveNamed_ok env bun.images dir
    (fun p hp => hok p.2.image (hmemA p hp))
    (fun p hp => hfresh p.2.image (hmemA p hp))
    hnodupA
  have hfreshB : ∀ q ∈ bun.invocationImages,
      hasName (dir ++ bun.images.map
          (fun p => (artifactPath p.2.image, saveContent env p.2.image)))
        (artifactPath q.image) = false := by
    intro q hq
    rw [hasName_append, hfresh q.image (hmemB q hq)]
    have hnotin : artifactPath q.image
        ∉ bun.images.map (fun p => artifactPath p.2.image) := by
      intro hmem
      exact hdisj hmem (List.mem_map_of_mem _ hq)
    rw [hasName_map_false bun.images (fun p => artifactPath p.2.image)
      (fun p => saveContent env p.2.image) (artifactPath q.image) hnotin]
    rfl
  have hB := archiveInvocation_ok env bun.invocationImages
    (dir ++ bun.images.map (fun p => (artifactPath p.2.image, saveContent env p.2.image)))
    (fun q hq => hok q.image (hmemB q hq)) hfreshB hnodupB
  simp [prepareArtifacts, hA, hB, digestedBundle, bundleRefs, List.map_append,
    List.map_map, Function.comp_def, List.append_assoc]

theorem archiveNamed_fail (env : DockerEnv) (key : Str) (im : Image) (e : Str)
    (hfail : ∀ dir, archiveImage env im.image dir = .error e) :
    ∀ (pre : List (Str × Image)),
      (∀ p ∈ pre, pullOkB (env.pull p.2.image) = true ∧ saveOkB (env.save p.2.image) = true) →
      ∀ post dir, archiveNamed env (pre ++ (key, im) :: post) dir = .error e := by
  intro pre
  induction pre with
  | nil =>
    intro _ post dir
    simp [archiveNamed, hfail dir]
  | cons hd tl ih =>
    intro hok post dir
    obtain ⟨k1, im1⟩ := hd
    obtain ⟨hp, hs⟩ := hok (k1, im1) (List.mem_cons_self _ _)
    obtain ⟨c, hsc⟩ := saveOkB_eq hs
    have hrec := ih (fun p hp2 => hok p (List.mem_cons_of_mem _ hp2)) post
      (writeFile dir (artifactPath im1.image) c)
    simp [archiveNamed, archiveImage_ok env im1.image dir c (pullOkB_eq hp) hsc, hrec]

theorem archiveNamed_isOk (env : DockerEnv) :
    ∀ (ims : List (Str × Image)) (dir : Dir),
      (∀ p ∈ ims, pullOkB (env.pull p.2.image) = true ∧ saveOkB (env.save p.2.image) = true) →
      ∃ out, archiveNamed env ims dir = .ok out := by
  intro ims
  induction ims with
  | nil => intro dir _; exact ⟨([], dir), rfl⟩
  | cons hd tl ih =>
    intro dir hok
    obtain ⟨k1, im1⟩ := hd
    obtain ⟨hp, hs⟩ := hok (k1, im1) (List.mem_cons_self _ _)
    obtain ⟨c, hsc⟩ := saveOkB_eq hs
    obtain ⟨⟨outImgs, outDir⟩, hout⟩ := ih (writeFile dir (artifactPath im1.image) c)
      (fun p hp2 => hok p (List.mem_cons_of_mem _ hp2))
    exact ⟨((k1, { im1 with digest := tempchecksum }) :: outImgs, outDir), by
      simp [archiveNamed, archiveImage_ok env im1.image dir c (pullOkB_eq hp) hsc, hout]⟩

theorem archiveInvocation_fail (env : DockerEnv) (im : InvocationImage) (e : Str)
    (hfail : ∀ dir, archiveImage env im.image dir = .error e) :
    ∀ (pre : List InvocationImage),
      (∀ p ∈ pre, pullOkB (env.pull p.image) = true ∧ saveOkB (env.save p.image) = true) →
      ∀ post dir, archiveInvocation env (pre ++ im :: post) dir = .error e := by
  intro pre
  induction pre with
  | nil =>
    intro _ post dir
    simp [archiveInvocation, hfail dir]
  | cons hd tl ih =>
    intro hok post dir
    obtain ⟨hp, hs⟩ := hok hd (List.mem_cons_self _ _)
    obtain ⟨c, hsc⟩ := saveOkB_eq hs
    have hrec := ih (fun p hp2 => hok p (List.mem_cons_of_mem _ hp2)) post
      (writeFile dir (artifactPath hd.image) c)
    simp [archiveInvocation, archiveImage_ok env hd.image dir c (pullOkB_eq hp) hsc, hrec]

/- ### C2 -/

/-- C2: during thick export, if archiving any single Image or
InvocationImage fails, the whole run fails fast. First conjunct: for a
bundle whose Images are `pre` followed by a failing image and arbitrary
further images `post`, once every image in `pre` succeeds,
`prepareArtifacts` returns the failing image's error unchanged (for every
directory state, and independently of `post` and of the invocation images,
which are never processed), and `Export` returns the wrapped error with the
destination archive never created. Second conjunct: the same when every
Image succeeds and an InvocationImage in the second loop fails, with
`preI`/`postI` the surrounding invocation images, independently of
`postI`. -/
theorem C2_thick_export_fail_fast (ex : Exporter) (env : ExportEnv) (bun : Bundle)
    (h1 : env.createLogErr = none) (h2 : env.stat = .ok ⟨false⟩)
    (h3 : env.load = .ok bun) (h4 : env.absErr = none) (h5 : env.mkdirErr = none)
    (h6 : env.openSourceErr = none) (h7 : env.openDescriptorErr = none)
    (h8 : env.copyDescriptorErr = none) (hthin : ex.Thin = false) :
    (∀ (pre : List (Str × Image)) (key : Str) (im : Image) (e : Str)
        (post : List (Str × Image)),
      bun.images = pre ++ (key, im) :: post →
      (∀ p ∈ pre, pullOkB (env.docker.pull p.2.image) = true ∧
        saveOkB (env.docker.save p.2.image) = true) →
      (∀ dir, archiveImage env.docker im.image dir = .error e) →
      (∀ dir, prepareArtifacts env.docker bun dir = .error e) ∧
      ex.Export env = ⟨.err (errPreparingArtifacts e), false, none⟩) ∧
    (∀ (preI : List InvocationImage) (im : InvocationImage) (e : Str)
        (postI : List InvocationImage),
      bun.invocationImages = preI ++ im :: postI →
      (∀ p ∈ bun.images, pullOkB (env.docker.pull p.2.image) = true ∧
        saveOkB (env.docker.save p.2.image) = true) →
      (∀ p ∈ preI, pullOkB (env.docker.pull p.image) = true ∧
        saveOkB (env.docker.save p.image) = true) →
      (∀ dir, archiveImage env.docker im.image dir = .error e) →
      (∀ dir, prepareArtifacts env.docker bun dir = .error e) ∧
      ex.Export env = ⟨.err (errPreparingArtifacts e), false, none⟩) := by
  constructor
  · intro pre key im e post himgs hok hfail
    have hprep : ∀ dir, prepareArtifacts env.docker bun dir = .error e := by
      intro dir
      have hnamed := archiveNamed_fail env.docker key im e hfail pre hok post dir
      simp [prepareArtifacts, himgs, hnamed]
    refine ⟨hprep, ?_⟩
    simp [Exporter.Export, orElseErr, exportStage, h1, h2, h3, h4, h5, h6, h7, h8,
      hthin, hprep]
  · intro preI im e postI hinv hokImgs hokPre hfail
    have hprep : ∀ dir, prepareArtifacts env.docker bun dir = .error e := by
      intro dir
      obtain ⟨⟨outImgs, outDir⟩, hnamed⟩ :=
        archiveNamed_isOk env.docker bun.images dir hokImgs
      have hinvfail :=
        archiveInvocation_fail env.docker im e hfail preI hokPre postI outDir
      simp [prepareArtifacts, hnamed, hinv, hinvfail]
    refine ⟨hprep, ?_⟩
    simp [Exporter.Export, orElseErr, exportStage, h1, h2, h3, h4, h5, h6, h7, h8,
      hthin, hprep]

/-- C2 witness: two thick exports, one whose single Image fails to pull and
one whose Images succeed but whose single InvocationImage fails to pull;
both return the wrapped pull error and create no destination archive. -/
theorem C2_thick_export_fail_fast_witness :
    (exThick.Export envC2 =
      ⟨.err (errPreparingArtifacts (pullErrorMsg ("img".data) ("boom".data))),
       false, none⟩) ∧
    (exThick.Export envC2b =
      ⟨.err (errPreparingArtifacts (pullErrorMsg ("bad".data) ("boom".data))),
       false, none⟩) :=
  ⟨((C2_thick_export_fail_fast exThick envC2 bunC2
      rfl rfl rfl rfl rfl rfl rfl rfl rfl).1
      [] ("db".data) ⟨"img".data, []⟩ (pullErrorMsg ("img".data) ("boom".data)) []
      rfl (by simp) (fun _ => rfl)).2,
   ((C2_thick_export_fail_fast exThick envC2b bunC2b
      rfl rfl rfl rfl rfl rfl rfl rfl rfl).2
      [] ⟨"bad".data, []⟩ (pullErrorMsg ("bad".data) ("boom".data)) []
      rfl (by decide) (by simp) (fun _ => rfl)).2⟩

/- ### C1 -/

/-- C1 counterexample: the claim fails as stated. The thick export of a
bundle with two images whose references `a/b` and `a:b` collide after
sanitizing completes successfully but its archive holds one artifact file,
not two. -/
theorem C1_thick_collision_counterexample :
    (bundleRefs bunC1x).length = 2 ∧
    (exThick.Export envC1x).outcome = .ok ∧
    countArtifacts (exThick.Export envC1x) = some 1 :=
  ⟨rfl, rfl, rfl⟩

/-- C1 (amended): under a fully successful environment with a fresh staging
directory, a thin export archives exactly the descriptor file and nothing
under `artifacts/`; a thick export archives the signed descriptor plus one
artifact entry per image, each named deterministically from its reference
(`artifacts/<sanitized>.tar`), and the number of artifact files equals the
number of images exactly when the sanitized artifact paths of the
references are pairwise distinct (the hypothesis below) — colliding
references share a single file. -/
theorem C1_export_archive_contents (ex : Exporter) (env : ExportEnv) (bun : Bundle)
    (h1 : env.createLogErr = none) (h2 : env.stat = .ok ⟨false⟩)
    (h3 : env.load = .ok bun) (h4 : env.absErr = none) (h5 : env.mkdirErr = none)
    (h6 : env.stagingPre = []) (h7 : env.openSourceErr = none)
    (h8 : env.openDescriptorErr = none) (h9 : env.copyDescriptorErr = none)
    (h10 : env.createDestErr = none) (h11 : env.tarErr = none) :
    (ex.Thin = true →
      ex.Export env =
        ⟨.ok, true, some [(descriptorFileName ex.Unsigned, env.sourceBytes)]⟩ ∧
      ([(descriptorFileName ex.Unsigned, env.sourceBytes)].filter
          (fun p => hasPrefix artifactsPrefix p.1)) = []) ∧
    (∀ (key : Str) (sig : Bundle → Str),
      ex.Thin = false →
      dockerOk env.docker (bundleRefs bun) →
      ((bundleRefs bun).map artifactPath).Nodup →
      ex.Signer = [] →
      env.sign.loadKeyRing = .ok [key] →
      (∀ b, env.sign.clearsign key b = .ok (sig b)) →
      env.sign.writeFileErr = none →
      ex.Export env =
        ⟨.ok, true,
         some ((descriptorFileName ex.Unsigned, sig (digestedBundle bun) ++ ['\n']) ::
           (bundleRefs bun).map (fun r => (artifactPath r, saveContent env.docker r)))⟩ ∧
      (((descriptorFileName ex.Unsigned, sig (digestedBundle bun) ++ ['\n']) ::
          (bundleRefs bun).map (fun r => (artifactPath r, saveContent env.docker r))).filter
            (fun p => hasPrefix artifactsPrefix p.1)).length
        = (bundleRefs bun).length) := by
  have hd1 : writeFile env.stagingPre (descriptorFileName ex.Unsigned) env.sourceBytes
      = [(descriptorFileName ex.Unsigned, env.sourceBytes)] := by
    rw [h6]
    rfl
  constructor
  · intro hthin
    constructor
    · simp [Exporter.Export, orElseErr, exportStage, finalizeArchive,
        h1, h2, h3, h4, h5, h7, h8, h9, h10, h11, hthin, hd1]
    · simp [List.filter_cons, descriptor_no_artifacts_prefix ex.Unsigned]
  · intro key sig hthin hok hnodup hsigner hkr hcl hwf
    have hfresh : ∀ r ∈ bundleRefs bun,
        hasName [(descriptorFileName ex.Unsigned, env.sourceBytes)]
          (artifactPath r) = false := by
      intro r _
      simp [hasName, descriptor_ne_artifactPath ex.Unsigned r]
    have hprep := prepareArtifacts_ok env.docker bun
      [(descriptorFileName ex.Unsigned, env.sourceBytes)] hok hfresh hnodup
    have hwb : (writeBundle env.sign (digestedBundle bun) ex.Signer
        (descriptorFileName ex.Unsigned)).result
        = .ok (sig (digestedBundle bun) ++ ['\n']) := by
      simp [writeBundle, hkr, hsigner, hcl (digestedBundle bun), hwf]
    have hrw : writeFile
        ((descriptorFileName ex.Unsigned, env.sourceBytes) ::
          (bundleRefs bun).map (fun r => (artifactPath r, saveContent env.docker r)))
        (descriptorFileName ex.Unsigned) (sig (digestedBundle bun) ++ ['\n'])
        = (descriptorFileName ex.Unsigned, sig (digestedBundle bun) ++ ['\n']) ::
          (bundleRefs bun).map (fun r => (artifactPath r, saveContent env.docker r)) := by
      refine writeFile_head _ _ _ _ ?_
      intro p hp
      obtain ⟨r, _, rfl⟩ := List.mem_map.1 hp
      exact Ne.symm (descriptor_ne_artifactPath ex.Unsigned r)
    have hfilter : ((bundleRefs bun).map
        (fun r => (artifactPath r, saveContent env.docker r))).filter
          (fun p => hasPrefix artifactsPrefix p.1)
        = (bundleRefs bun).map (fun r => (artifactPath r, saveContent env.docker r)) := by
      apply List.filter_eq_self.2
      intro p hp
      obtain ⟨r, _, rfl⟩ := List.mem_map.1 hp
      exact hasPrefix_append_self artifactsPrefix (buildFileName r ++ tarSuffix)
    constructor
    · simp [Exporter.Export, orElseErr, exportStage, finalizeArchive,
        h1, h2, h3, h4, h5, h7, h8, h9, h10, h11, hthin, hd1, hprep, hwb, hrw]
    · simp [List.filter_cons, descriptor_no_artifacts_prefix ex.Unsigned, hfilter]

/-- C1 witness: the amended theorem at a thick export of a two-image bundle
with distinct sanitized names. -/
theorem C1_export_archive_contents_witness :
    exThick.Export envC1w =
      ⟨.ok, true,
       some ((descriptorFileName false, ("signed".data) ++ ['\n']) ::
         (bundleRefs bunW).map
           (fun r => (artifactPath r, saveContent dockerAllOk r)))⟩ :=
  (((C1_export_archive_contents exThick envC1w bunW rfl rfl rfl rfl rfl rfl rfl
      rfl rfl rfl rfl).2
    ("key1".data) (fun _ => ("signed".data)) rfl (fun _ _ => ⟨rfl, rfl⟩) (by decide)
    rfl rfl (fun _ => rfl) rfl).1)

end Duffle
